import Mathlib

/-!
Verification of `src/switchroot/ostree-remount.c` (the ostree boot-time
remount tool).  The C program is embedded shallowly: each system call the
program can issue is recorded as an event, and the environment (what the
kernel and filesystem would answer to `lstat`, `statvfs`, `mount`,
the configuration file, and the root-writability probe) is passed in
explicitly.  The external collaborators `touch_run_ostree` and
`path_is_on_readonly_fs` are modelled at their interface only: the former
has no observable effect on the properties below, the latter is a boolean
input of the environment.
-/

namespace OstreeRemount

/-! ### Constants

Linux mount flags and errno values from `<sys/mount.h>` / `<errno.h>`. -/

def MS_RDONLY : Nat := 1
def MS_REMOUNT : Nat := 32
def MS_BIND : Nat := 4096
def MS_REC : Nat := 16384
def MS_SILENT : Nat := 32768
def MS_PRIVATE : Nat := 262144
def EINVAL : Nat := 22
def EXIT_SUCCESS : Nat := 0
def EXIT_FAILURE : Nat := 1

/-! ### Events -/

/-- One `mount(2)` invocation: `mount (source, target, NULL, flags, NULL)`. -/
structure MountCall where
  source : String
  target : String
  flags : Nat
deriving DecidableEq, Repr

/-- Observable actions of the program, in program order: issued `mount(2)`
syscalls, lines written to stdout (`printf`/`puts`) and diagnostics written
to stderr (`perror`/`err`; for `err` the message shown here is the
format-string part, libc appends the errno text). -/
inductive Event where
  | mountCall (c : MountCall)
  | stdoutLine (s : String)
  | stderrLine (s : String)
deriving DecidableEq, Repr

/-- The stdout lines of a trace, in order. -/
def stdoutOf (es : List Event) : List String :=
  es.filterMap fun e =>
    match e with
    | Event.stdoutLine s => some s
    | _ => none

/-- The issued `mount(2)` calls of a trace, in order. -/
def mountCallsOf (es : List Event) : List MountCall :=
  es.filterMap fun e =>
    match e with
    | Event.mountCall c => some c
    | _ => none

/-! ### Environment of one `do_remount` call -/

/-- What the kernel answers about one path inside `do_remount`:
whether `lstat` succeeds, whether the `st_mode` is a symlink, whether
`statvfs` succeeds, whether `ST_RDONLY` is set in `f_flag`, and the result
of a `mount(2)` attempt (`none` = success, `some e` = failure, errno `e`). -/
structure MountEnv where
  lstatOk : Bool
  isSymlink : Bool
  statvfsOk : Bool
  stRdonly : Bool
  mountErrno : Option Nat
deriving DecidableEq, Repr

/-- Outcome classification of one `do_remount` call (the C function returns
`void`; these labels name its distinct control-flow exits). -/
inductive RemountOutcome where
  | noOpNoEntry
  | noOpSymlink
  | noOpNotMount
  | noOpAlreadyDesiredState
  | noOpNotAMountPoint
  | applied
  | fatalError
deriving DecidableEq, Repr

/-- Result of one `do_remount` call: its outcome, its event trace, and the
`err(3)` message when the call aborts the process. -/
structure DoRemountResult where
  outcome : RemountOutcome
  events : List Event
  fatalMsg : Option String
deriving DecidableEq, Repr

/-- `writable ? "rw" : "ro"`. -/
def modeStr (writable : Bool) : String := if writable then "rw" else "ro"

/-- Shallow embedding of `do_remount` (ostree-remount.c lines 46-82).
Control flow mirrors the C: bail out on `lstat` failure, on symlinks and on
`statvfs` failure; skip when current writability already matches; otherwise
issue `mount (target, target, NULL, MS_REMOUNT|MS_SILENT[|MS_RDONLY], NULL)`,
tolerate `EINVAL`, abort on any other errno, and print the status line on
success. -/
def do_remount (env : MountEnv) (target : String) (writable : Bool) :
    DoRemountResult :=
  if env.lstatOk = false then ⟨RemountOutcome.noOpNoEntry, [], none⟩
  else if env.isSymlink then ⟨RemountOutcome.noOpSymlink, [], none⟩
  else if env.statvfsOk = false then ⟨RemountOutcome.noOpNotMount, [], none⟩
  else
    let currently_writable : Bool := !env.stRdonly
    if writable = currently_writable then
      ⟨RemountOutcome.noOpAlreadyDesiredState, [], none⟩
    else
      let mnt_flags : Nat :=
        MS_REMOUNT ||| MS_SILENT ||| (if writable then 0 else MS_RDONLY)
      let call : Event := Event.mountCall ⟨target, target, mnt_flags⟩
      match env.mountErrno with
      | some e =>
          if e = EINVAL then
            ⟨RemountOutcome.noOpNotAMountPoint, [call], none⟩
          else
            ⟨RemountOutcome.fatalError, [call],
              some ("failed to remount(" ++ modeStr writable ++ ") " ++ target)⟩
      | none =>
          ⟨RemountOutcome.applied,
            [call,
             Event.stdoutLine
               ("Remounted " ++ modeStr writable ++ ": " ++ target)],
            none⟩

/-- Kernel mount-table semantics for sequential composition: a successful
`MS_REMOUNT` sets or clears `ST_RDONLY` according to the requested
writability; a skipped or failed call leaves the path's state unchanged. -/
def MountEnv.afterRemount (env : MountEnv) (target : String)
    (writable : Bool) : MountEnv :=
  if (do_remount env target writable).outcome = RemountOutcome.applied then
    { env with stRdonly := !writable }
  else env

/-! ### Configuration oracle -/

/-- State of the file `/ostree/repo/config` as seen through `stat`,
`g_key_file_load_from_file` and `g_key_file_get_boolean`: absent (`stat`
fails), unparseable (load fails), or parsed with the boolean value of key
`readonly` in section `sysroot` (GLib returns `false` when the key or the
section is missing, so that case is `parsed false`). -/
inductive ConfigFile where
  | absent
  | unparseable
  | parsed (sysrootReadonly : Bool)
deriving DecidableEq, Repr

/-- The informational line printed when a true `sysroot.readonly` setting
is ignored (ostree-remount.c line 97). -/
def ignoredNotice : String :=
  "Ignoring sysroot.readonly config; see https://github.com/coreos/fedora-coreos-tracker/issues/488."

/-- Shallow embedding of `sysroot_is_configured_ro` (lines 84-100): returns
the boolean result together with the stdout events it produces.  Missing or
unparseable file returns `false`; a parsed file with `sysroot.readonly`
true prints the notice; every path returns `false`. -/
def sysroot_is_configured_ro (cfg : ConfigFile) : Bool × List Event :=
  match cfg with
  | ConfigFile.absent => (false, [])
  | ConfigFile.unparseable => (false, [])
  | ConfigFile.parsed b =>
      if b then (false, [Event.stdoutLine ignoredNotice]) else (false, [])

/-! ### Orchestrator -/

/-- The whole environment of one run of `main`: the root-writability probe,
the configuration file, whether the `MS_REC|MS_PRIVATE` mount and the
`/etc` bind mount succeed, and the per-path state for the three
`do_remount` targets. -/
structure Env where
  rootReadonly : Bool
  config : ConfigFile
  privatizeOk : Bool
  sysrootEnv : MountEnv
  etcBindOk : Bool
  etcEnv : MountEnv
  varEnv : MountEnv
deriving DecidableEq, Repr

/-- A finished run: its event trace and the process exit status. -/
structure RunResult where
  events : List Event
  exitCode : Nat
deriving DecidableEq, Repr

/-- The `mount ("none", "/sysroot", NULL, MS_REC | MS_PRIVATE, NULL)` call
issued unconditionally at the start of `main` (line 116). -/
def privatizeCall : MountCall := ⟨"none", "/sysroot", MS_REC ||| MS_PRIVATE⟩

/-- The self-bind mount `mount ("/etc", "/etc", NULL, MS_BIND, NULL)`
issued when the sysroot is policy-read-only (line 143). -/
def etcBindCall : MountCall := ⟨"/etc", "/etc", MS_BIND⟩

/-- Shallow embedding of `main` lines 135-158, factored over the already
computed `sysroot_readonly` flag: remount `/sysroot` with writability
`!sysroot_readonly`; if `sysroot_readonly`, bind-mount `/etc` onto itself
(fatal on failure) and remount it writable; finally remount `/var`
writable.  A fatal `do_remount` ends the run with `EXIT_FAILURE` and its
`err` message on stderr; otherwise the run ends with `EXIT_SUCCESS`. -/
def remount_sequence (sysroot_readonly : Bool) (env : Env) : RunResult :=
  let r1 := do_remount env.sysrootEnv "/sysroot" (!sysroot_readonly)
  match r1.fatalMsg with
  | some m => ⟨r1.events ++ [Event.stderrLine m], EXIT_FAILURE⟩
  | none =>
    if sysroot_readonly then
      if env.etcBindOk = false then
        ⟨r1.events ++ [Event.mountCall etcBindCall,
           Event.stderrLine "failed to make /etc a bind mount"],
         EXIT_FAILURE⟩
      else
        let r2 := do_remount env.etcEnv "/etc" true
        match r2.fatalMsg with
        | some m =>
            ⟨r1.events ++ [Event.mountCall etcBindCall] ++ r2.events
               ++ [Event.stderrLine m], EXIT_FAILURE⟩
        | none =>
            let r3 := do_remount env.varEnv "/var" true
            match r3.fatalMsg with
            | some m =>
                ⟨r1.events ++ [Event.mountCall etcBindCall] ++ r2.events
                   ++ r3.events ++ [Event.stderrLine m], EXIT_FAILURE⟩
            | none =>
                ⟨r1.events ++ [Event.mountCall etcBindCall] ++ r2.events
                   ++ r3.events, EXIT_SUCCESS⟩
    else
      let r3 := do_remount env.varEnv "/var" true
      match r3.fatalMsg with
      | some m => ⟨r1.events ++ r3.events ++ [Event.stderrLine m],
                    EXIT_FAILURE⟩
      | none => ⟨r1.events ++ r3.events, EXIT_SUCCESS⟩

/-- The events of the namespace-privatization step (lines 116-117): the
`mount` call, plus a `perror` warning (not fatal) when it fails. -/
def privatizeEvents (env : Env) : List Event :=
  if env.privatizeOk then [Event.mountCall privatizeCall]
  else [Event.mountCall privatizeCall,
        Event.stderrLine "warning: While remounting /sysroot MS_PRIVATE"]

/-- Shallow embedding of `main` (lines 102-161): privatize the `/sysroot`
mount, exit successfully at once when `/` is read-only, otherwise consult
`sysroot_is_configured_ro` and run the remount sequence with its result.
`touch_run_ostree` is an external collaborator with no events modelled. -/
def main_run (env : Env) : RunResult :=
  if env.rootReadonly then ⟨privatizeEvents env, EXIT_SUCCESS⟩
  else
    let q := sysroot_is_configured_ro env.config
    let r := remount_sequence q.1 env
    ⟨privatizeEvents env ++ q.2 ++ r.events, r.exitCode⟩

/-! ### Helper lemmas -/

/-- The single `mount(2)` call `do_remount` can issue for `target` and
`writable`. -/
def remountCall (t : String) (w : Bool) : MountCall :=
  ⟨t, t, MS_REMOUNT ||| MS_SILENT ||| (if w then 0 else MS_RDONLY)⟩

lemma do_remount_call_mem {env : MountEnv} {t : String} {w : Bool}
    {c : MountCall} (h : Event.mountCall c ∈ (do_remount env t w).events) :
    c = remountCall t w := by
  rcases env with ⟨lOk, sym, sOk, ro, me⟩
  cases lOk <;> cases sym <;> cases sOk <;> cases ro <;> cases w <;>
    rcases me with _ | e <;>
    simp only [do_remount, remountCall] at h ⊢ <;>
    first
      | (by_cases he : e = EINVAL <;> simp_all)
      | simp_all

lemma do_remount_fatalMsg_of_not_fatal {env : MountEnv} {t : String}
    {w : Bool}
    (h : (do_remount env t w).outcome ≠ RemountOutcome.fatalError) :
    (do_remount env t w).fatalMsg = none := by
  rcases env with ⟨lOk, sym, sOk, ro, me⟩
  cases lOk <;> cases sym <;> cases sOk <;> cases ro <;> cases w <;>
    rcases me with _ | e <;>
    simp only [do_remount] at h ⊢ <;>
    first
      | (by_cases he : e = EINVAL <;> simp_all)
      | simp_all

lemma sysroot_ro_fst (cfg : ConfigFile) :
    (sysroot_is_configured_ro cfg).1 = false := by
  cases cfg with
  | absent => rfl
  | unparseable => rfl
  | parsed b => cases b <;> rfl

lemma sysroot_ro_no_mountCall {cfg : ConfigFile} {c : MountCall}
    (h : Event.mountCall c ∈ (sysroot_is_configured_ro cfg).2) : False := by
  cases cfg with
  | absent => simp [sysroot_is_configured_ro] at h
  | unparseable => simp [sysroot_is_configured_ro] at h
  | parsed b => cases b <;> simp [sysroot_is_configured_ro] at h

/-! ### Claims -/

/-- C1: for every content of the configuration file,
`sysroot_is_configured_ro` returns `false`; it prints the informational
"ignoring" notice exactly when the file parses and `sysroot.readonly` is
true, and prints nothing otherwise. -/
theorem claim_C1 (cfg : ConfigFile) :
    (sysroot_is_configured_ro cfg).1 = false ∧
    (sysroot_is_configured_ro cfg).2 =
      (if cfg = ConfigFile.parsed true
       then [Event.stdoutLine ignoredNotice] else []) := by
  refine ⟨sysroot_ro_fst cfg, ?_⟩
  cases cfg with
  | absent => rfl
  | unparseable => rfl
  | parsed b => cases b <;> rfl

/-- C2 counterexample: at a concrete environment where the remount is
applied (path `/sysroot`, currently read-only, requested writable), the
line actually printed is `Remounted rw: /sysroot` — the mode comes first
and the path second, so the claimed format `Remounted /sysroot: rw`
(path first) does not hold. -/
theorem claim_C2_counterexample :
    stdoutOf (do_remount ⟨true, false, true, true, none⟩ "/sysroot"
        true).events = ["Remounted rw: /sysroot"] ∧
    ("Remounted rw: /sysroot" : String) ≠ "Remounted /sysroot: rw" := by
  constructor
  · rfl
  · decide

/-- C2 (amended): for every remount that is applied, exactly one line is
written to standard output and its format is `Remounted <rw|ro>: <path>` —
the mode first, then the path; no line is emitted for any no-op or fatal
outcome. -/
theorem claim_C2 (env : MountEnv) (t : String) (w : Bool) :
    stdoutOf (do_remount env t w).events =
      (if (do_remount env t w).outcome = RemountOutcome.applied
       then ["Remounted " ++ modeStr w ++ ": " ++ t] else []) := by
  rcases env with ⟨lOk, sym, sOk, ro, me⟩
  cases lOk <;> cases sym <;> cases sOk <;> cases ro <;> cases w <;>
    rcases me with _ | e <;>
    simp only [do_remount, stdoutOf] <;>
    first
      | (by_cases he : e = EINVAL <;> simp_all)
      | simp_all

/-! ### Concrete environments used by witnesses -/

/-- A path that exists, is not a symlink, is a mount point, is currently
read-only, and whose remount succeeds. -/
def okMountEnv : MountEnv := ⟨true, false, true, true, none⟩

/-- Like `okMountEnv`, but the remount fails with `EINVAL`. -/
def einvalMountEnv : MountEnv := ⟨true, false, true, true, some EINVAL⟩

/-- Like `okMountEnv`, but the remount fails with `EACCES` (errno 13). -/
def eaccesMountEnv : MountEnv := ⟨true, false, true, true, some 13⟩

/-- A path that is a symbolic link. -/
def symlinkMountEnv : MountEnv := ⟨true, true, true, false, none⟩

/-- A run environment with writable root and the given `/sysroot` state. -/
def plainEnv (m : MountEnv) : Env :=
  ⟨false, ConfigFile.absent, true, m, true, okMountEnv, okMountEnv⟩

/-- A run environment whose root filesystem is read-only. -/
def roRootEnv : Env :=
  ⟨true, ConfigFile.parsed true, true, okMountEnv, true, okMountEnv,
    okMountEnv⟩

/-- C3: if the root filesystem is read-only at the start of the run, the
process exits with success and the only `mount(2)` call of the whole run is
the namespace-privatization call, which carries no `MS_REMOUNT` flag — so
no remount syscall is issued for `/sysroot`, `/etc` or `/var`. -/
theorem claim_C3 (env : Env) (h : env.rootReadonly = true) :
    (main_run env).exitCode = EXIT_SUCCESS ∧
    mountCallsOf (main_run env).events = [privatizeCall] ∧
    privatizeCall.flags &&& MS_REMOUNT = 0 := by
  cases hp : env.privatizeOk <;>
    simp [main_run, h, privatizeEvents, hp, mountCallsOf] <;> decide

/-- Witness for C3 at a concrete read-only-root environment. -/
theorem claim_C3_witness :
    (main_run roRootEnv).exitCode = EXIT_SUCCESS ∧
    mountCallsOf (main_run roRootEnv).events = [privatizeCall] ∧
    privatizeCall.flags &&& MS_REMOUNT = 0 :=
  claim_C3 roRootEnv rfl

/-- C4: when the remount syscall is issued and fails, an `EINVAL` failure
is a benign no-op (`noOpNotAMountPoint`, no fatal message) and the
orchestration still reaches the remaining `/var` target, while any other
errno makes the call fatal with a message naming the requested mode and the
target path, and the run terminates immediately with a non-zero exit
status, the `/var` target never being processed. -/
theorem claim_C4 :
    (∀ (env : MountEnv) (t : String) (w : Bool) (e : Nat),
      env.mountErrno = some e →
      mountCallsOf (do_remount env t w).events ≠ [] →
        (e = EINVAL →
          (do_remount env t w).outcome = RemountOutcome.noOpNotAMountPoint ∧
          (do_remount env t w).fatalMsg = none) ∧
        (e ≠ EINVAL →
          (do_remount env t w).outcome = RemountOutcome.fatalError ∧
          (do_remount env t w).fatalMsg =
            some ("failed to remount(" ++ modeStr w ++ ") " ++ t))) ∧
    (∀ env : Env,
      (do_remount env.sysrootEnv "/sysroot" true).outcome =
          RemountOutcome.noOpNotAMountPoint →
        ∃ tail, (remount_sequence false env).events =
          (do_remount env.sysrootEnv "/sysroot" true).events ++
          (do_remount env.varEnv "/var" true).events ++ tail) ∧
    (∀ (env : Env) (m : String),
      (do_remount env.sysrootEnv "/sysroot" true).fatalMsg = some m →
        (remount_sequence false env).exitCode = EXIT_FAILURE ∧
        (remount_sequence false env).events =
          (do_remount env.sysrootEnv "/sysroot" true).events ++
          [Event.stderrLine m]) := by
  refine ⟨?_, ?_, ?_⟩
  · intro env t w e he hcall
    rcases env with ⟨lOk, sym, sOk, ro, me⟩
    cases he
    cases lOk <;> cases sym <;> cases sOk <;> cases ro <;> cases w <;>
      by_cases hE : e = EINVAL <;>
      simp_all [do_remount, mountCallsOf]
  · intro env h
    have hfm : (do_remount env.sysrootEnv "/sysroot" true).fatalMsg = none :=
      do_remount_fatalMsg_of_not_fatal (by simp [h])
    rcases h3 : (do_remount env.varEnv "/var" true).fatalMsg with _ | m
    · exact ⟨[], by simp [remount_sequence, hfm, h3]⟩
    · exact ⟨[Event.stderrLine m], by simp [remount_sequence, hfm, h3]⟩
  · intro env m h
    constructor <;> simp [remount_sequence, h]

/-- Witness for C4: the `EINVAL` branch, the continue-to-`/var` branch and
the fatal branch, each at a concrete environment. -/
theorem claim_C4_witness :
    (((do_remount einvalMountEnv "/sysroot" true).outcome =
        RemountOutcome.noOpNotAMountPoint ∧
      (do_remount einvalMountEnv "/sysroot" true).fatalMsg = none) ∧
     ((13 : Nat) ≠ EINVAL →
      (do_remount eaccesMountEnv "/sysroot" true).outcome =
        RemountOutcome.fatalError ∧
      (do_remount eaccesMountEnv "/sysroot" true).fatalMsg =
        some ("failed to remount(" ++ modeStr true ++ ") " ++ "/sysroot"))) ∧
    (∃ tail, (remount_sequence false (plainEnv einvalMountEnv)).events =
      (do_remount einvalMountEnv "/sysroot" true).events ++
      (do_remount okMountEnv "/var" true).events ++ tail) ∧
    ((remount_sequence false (plainEnv eaccesMountEnv)).exitCode =
        EXIT_FAILURE ∧
     (remount_sequence false (plainEnv eaccesMountEnv)).events =
       (do_remount eaccesMountEnv "/sysroot" true).events ++
       [Event.stderrLine ("failed to remount(" ++ modeStr true ++ ") "
          ++ "/sysroot")]) :=
  ⟨⟨(claim_C4.1 einvalMountEnv "/sysroot" true EINVAL rfl (by decide)).1 rfl,
    (claim_C4.1 eaccesMountEnv "/sysroot" true 13 rfl (by decide)).2⟩,
   claim_C4.2.1 (plainEnv einvalMountEnv) (by decide),
   claim_C4.2.2 (plainEnv eaccesMountEnv)
     ("failed to remount(" ++ modeStr true ++ ") " ++ "/sysroot")
     (by decide)⟩

/-- C5: a target path that is a symbolic link makes `do_remount` a no-op
that issues no `mount(2)` call and produces no events at all, for either
desired writability. -/
theorem claim_C5 (env : MountEnv) (t : String) (w : Bool)
    (h1 : env.lstatOk = true) (h2 : env.isSymlink = true) :
    (do_remount env t w).outcome = RemountOutcome.noOpSymlink ∧
    mountCallsOf (do_remount env t w).events = [] ∧
    (do_remount env t w).events = [] := by
  rcases env with ⟨lOk, sym, sOk, ro, me⟩
  cases h1
  cases h2
  simp [do_remount, mountCallsOf]

/-- Witness for C5: a concrete symlink environment, with desired
writability both true and false. -/
theorem claim_C5_witness :
    ((do_remount symlinkMountEnv "/etc" true).outcome =
        RemountOutcome.noOpSymlink ∧
     mountCallsOf (do_remount symlinkMountEnv "/etc" true).events = [] ∧
     (do_remount symlinkMountEnv "/etc" true).events = []) ∧
    ((do_remount symlinkMountEnv "/etc" false).outcome =
        RemountOutcome.noOpSymlink ∧
     mountCallsOf (do_remount symlinkMountEnv "/etc" false).events = [] ∧
     (do_remount symlinkMountEnv "/etc" false).events = []) :=
  ⟨claim_C5 symlinkMountEnv "/etc" true rfl rfl,
   claim_C5 symlinkMountEnv "/etc" false rfl rfl⟩

/-- C6: the remount operation is idempotent — when the current writability
already equals the desired one it issues no `mount(2)` call and returns
`noOpAlreadyDesiredState`; and running it twice in succession (the second
time on the state left by the first, per the kernel's remount semantics)
yields `applied` at most once, the second call being the
already-desired-state no-op whenever the first call applied. -/
theorem claim_C6 (env : MountEnv) (t : String) (w : Bool) :
    (env.lstatOk = true → env.isSymlink = false → env.statvfsOk = true →
      (!env.stRdonly) = w →
      (do_remount env t w).outcome =
        RemountOutcome.noOpAlreadyDesiredState ∧
      mountCallsOf (do_remount env t w).events = []) ∧
    ((do_remount env t w).outcome = RemountOutcome.applied →
      (do_remount (env.afterRemount t w) t w).outcome =
        RemountOutcome.noOpAlreadyDesiredState ∧
      mountCallsOf (do_remount (env.afterRemount t w) t w).events = []) ∧
    ¬((do_remount env t w).outcome = RemountOutcome.applied ∧
      (do_remount (env.afterRemount t w) t w).outcome =
        RemountOutcome.applied) := by
  rcases env with ⟨lOk, sym, sOk, ro, me⟩
  cases lOk <;> cases sym <;> cases sOk <;> cases ro <;> cases w <;>
    rcases me with _ | e <;>
    first
      | (by_cases hE : e = EINVAL <;>
          simp_all [do_remount, MountEnv.afterRemount, mountCallsOf])
      | simp_all [do_remount, MountEnv.afterRemount, mountCallsOf]

/-- Witness for C6: a concrete already-writable target requested writable
(first conjunct), and a concrete applied remount followed by its no-op
repeat (second and third conjuncts). -/
theorem claim_C6_witness :
    ((do_remount ⟨true, false, true, false, none⟩ "/var" true).outcome =
        RemountOutcome.noOpAlreadyDesiredState ∧
      mountCallsOf (do_remount ⟨true, false, true, false, none⟩ "/var"
        true).events = []) ∧
    ((do_remount (okMountEnv.afterRemount "/var" true) "/var" true).outcome =
        RemountOutcome.noOpAlreadyDesiredState ∧
      mountCallsOf (do_remount (okMountEnv.afterRemount "/var" true) "/var"
        true).events = []) ∧
    ¬((do_remount okMountEnv "/var" true).outcome =
        RemountOutcome.applied ∧
      (do_remount (okMountEnv.afterRemount "/var" true) "/var"
          true).outcome = RemountOutcome.applied) :=
  ⟨(claim_C6 ⟨true, false, true, false, none⟩ "/var" true).1 rfl rfl rfl rfl,
   (claim_C6 okMountEnv "/var" true).2.1 (by decide),
   (claim_C6 okMountEnv "/var" true).2.2⟩

/-- C7: every `mount(2)` call `do_remount` issues mounts the target path
onto itself, always carries `MS_REMOUNT` and `MS_SILENT`, and carries
`MS_RDONLY` exactly when the desired writability is false. -/
theorem claim_C7 (env : MountEnv) (t : String) (w : Bool) (c : MountCall)
    (h : Event.mountCall c ∈ (do_remount env t w).events) :
    c.source = t ∧ c.target = t ∧
    c.flags = (MS_REMOUNT ||| MS_SILENT ||| (if w then 0 else MS_RDONLY)) ∧
    c.flags &&& MS_REMOUNT = MS_REMOUNT ∧
    c.flags &&& MS_SILENT = MS_SILENT ∧
    (c.flags &&& MS_RDONLY = MS_RDONLY ↔ w = false) := by
  have hc := do_remount_call_mem h
  subst hc
  cases w <;> refine ⟨rfl, rfl, rfl, ?_, ?_, ?_⟩ <;>
    simp only [remountCall] <;> decide

/-- Witness for C7: the concrete call issued for `/var` requested
writable at a concrete environment. -/
theorem claim_C7_witness :
    (remountCall "/var" true).source = "/var" ∧
    (remountCall "/var" true).target = "/var" ∧
    (remountCall "/var" true).flags =
      (MS_REMOUNT ||| MS_SILENT ||| (if true then 0 else MS_RDONLY)) ∧
    (remountCall "/var" true).flags &&& MS_REMOUNT = MS_REMOUNT ∧
    (remountCall "/var" true).flags &&& MS_SILENT = MS_SILENT ∧
    ((remountCall "/var" true).flags &&& MS_RDONLY = MS_RDONLY ↔
      true = false) :=
  claim_C7 okMountEnv "/var" true (remountCall "/var" true) (by decide)

/-- C8: in every successfully completing remount sequence the event trace
decomposes, in order, into the `/sysroot` remount (requested writability
the negation of the sysroot-read-only policy), then — exactly when the
policy is read-only — the `/etc` self-bind mount followed by the `/etc`
remount-to-writable, and finally the `/var` remount, which is always last
and always requested writable. -/
theorem claim_C8 (ro : Bool) (env : Env)
    (h : (remount_sequence ro env).exitCode = EXIT_SUCCESS) :
    (remount_sequence ro env).events =
      (do_remount env.sysrootEnv "/sysroot" (!ro)).events ++
      (if ro then Event.mountCall etcBindCall ::
          (do_remount env.etcEnv "/etc" true).events else []) ++
      (do_remount env.varEnv "/var" true).events := by
  rcases h1 : (do_remount env.sysrootEnv "/sysroot" (!ro)).fatalMsg with _ | m
  · cases ro
    · simp only [Bool.not_false] at h1
      rcases h3 : (do_remount env.varEnv "/var" true).fatalMsg with _ | m3
      · simp [remount_sequence, h1, h3]
      · simp [remount_sequence, h1, h3, EXIT_FAILURE, EXIT_SUCCESS] at h
    · simp only [Bool.not_true] at h1
      cases hb : env.etcBindOk
      · simp [remount_sequence, h1, hb, EXIT_FAILURE, EXIT_SUCCESS] at h
      · rcases h2 : (do_remount env.etcEnv "/etc" true).fatalMsg with _ | m2
        · rcases h3 : (do_remount env.varEnv "/var" true).fatalMsg
            with _ | m3
          · simp [remount_sequence, h1, hb, h2, h3]
          · simp [remount_sequence, h1, hb, h2, h3, EXIT_FAILURE,
              EXIT_SUCCESS] at h
        · simp [remount_sequence, h1, hb, h2, EXIT_FAILURE,
            EXIT_SUCCESS] at h
  · simp [remount_sequence, h1, EXIT_FAILURE, EXIT_SUCCESS] at h

/-- A run environment whose sysroot starts writable (so the policy-read-only
remount applies) and whose `/etc` and `/var` remounts apply. -/
def roPolicyEnv : Env :=
  ⟨false, ConfigFile.parsed true, true, ⟨true, false, true, false, none⟩,
    true, okMountEnv, okMountEnv⟩

/-- Witness for C8: full decomposition of a concrete run with the
read-only policy, where every step applies. -/
theorem claim_C8_witness :
    (remount_sequence true roPolicyEnv).events =
      (do_remount roPolicyEnv.sysrootEnv "/sysroot" (!true)).events ++
      (if true then Event.mountCall etcBindCall ::
          (do_remount roPolicyEnv.etcEnv "/etc" true).events else []) ++
      (do_remount roPolicyEnv.varEnv "/var" true).events :=
  claim_C8 true roPolicyEnv (by decide)

lemma privatize_mountCall {env : Env} {c : MountCall}
    (h : Event.mountCall c ∈ privatizeEvents env) : c = privatizeCall := by
  cases hp : env.privatizeOk <;> simp_all [privatizeEvents]

lemma mem_remount_sequence_false {env : Env} {c : MountCall}
    (h : Event.mountCall c ∈ (remount_sequence false env).events) :
    Event.mountCall c ∈ (do_remount env.sysrootEnv "/sysroot" true).events ∨
    Event.mountCall c ∈ (do_remount env.varEnv "/var" true).events := by
  rcases h1 : (do_remount env.sysrootEnv "/sysroot" true).fatalMsg with _ | m
  · rcases h3 : (do_remount env.varEnv "/var" true).fatalMsg with _ | m3 <;>
      simp [remount_sequence, h1, h3] at h <;> tauto
  · simp [remount_sequence, h1] at h
    tauto

lemma remount_sequence_false_prefix (env : Env) :
    ∃ tail, (remount_sequence false env).events =
      (do_remount env.sysrootEnv "/sysroot" true).events ++ tail := by
  rcases h1 : (do_remount env.sysrootEnv "/sysroot" true).fatalMsg with _ | m
  · rcases h3 : (do_remount env.varEnv "/var" true).fatalMsg with _ | m3
    · exact ⟨(do_remount env.varEnv "/var" true).events,
        by simp [remount_sequence, h1, h3]⟩
    · exact ⟨(do_remount env.varEnv "/var" true).events ++
          [Event.stderrLine m3],
        by simp [remount_sequence, h1, h3]⟩
  · exact ⟨[Event.stderrLine m], by simp [remount_sequence, h1]⟩

/-- C9: regardless of the configuration file, the effective sysroot
read-only policy is `false`, so in every run no `mount(2)` call ever
carries `MS_BIND` (the `/etc` self-bind branch is unreachable), and when
the run reaches the remount sequence its trace continues with the
`/sysroot` remount requested writable `true`. -/
theorem claim_C9 (env : Env) :
    (∀ c : MountCall, Event.mountCall c ∈ (main_run env).events →
      c.flags &&& MS_BIND = 0) ∧
    (env.rootReadonly = false →
      (sysroot_is_configured_ro env.config).1 = false ∧
      ∃ tail, (main_run env).events =
        privatizeEvents env ++ (sysroot_is_configured_ro env.config).2 ++
        ((do_remount env.sysrootEnv "/sysroot" true).events ++ tail)) := by
  constructor
  · intro c hc
    cases hr : env.rootReadonly
    · simp only [main_run, hr, if_neg Bool.false_ne_true, sysroot_ro_fst,
        Bool.false_eq_true, if_false, List.mem_append] at hc
      rcases hc with (hc | hc) | hc
      · rw [privatize_mountCall hc]; decide
      · exact absurd hc sysroot_ro_no_mountCall
      · rcases mem_remount_sequence_false hc with h | h <;>
          rw [do_remount_call_mem h] <;>
          simp only [remountCall] <;> decide
    · simp only [main_run, hr, if_true] at hc
      rw [privatize_mountCall hc]; decide
  · intro hr
    refine ⟨sysroot_ro_fst _, ?_⟩
    obtain ⟨tail, ht⟩ := remount_sequence_false_prefix env
    exact ⟨tail, by simp [main_run, hr, sysroot_ro_fst, ht]⟩

/-- Witness for C9: the privatize call carries no `MS_BIND`, and a concrete
writable-root run decomposes through the `/sysroot` remount requested
writable. -/
theorem claim_C9_witness :
    privatizeCall.flags &&& MS_BIND = 0 ∧
    ((sysroot_is_configured_ro (plainEnv okMountEnv).config).1 = false ∧
     ∃ tail, (main_run (plainEnv okMountEnv)).events =
       privatizeEvents (plainEnv okMountEnv) ++
       (sysroot_is_configured_ro (plainEnv okMountEnv).config).2 ++
       ((do_remount (plainEnv okMountEnv).sysrootEnv "/sysroot" true).events
         ++ tail)) :=
  ⟨(claim_C9 (plainEnv okMountEnv)).1 privatizeCall (by decide),
   (claim_C9 (plainEnv okMountEnv)).2 rfl⟩

/-- C10: when the root filesystem is read-only the configuration file is
never consulted — two runs differing only in the configuration file have
identical traces and exit status, and in such a run nothing is written to
stdout, in particular not the ignored-config notice. -/
theorem claim_C10 (env : Env) (cfg1 cfg2 : ConfigFile)
    (h : env.rootReadonly = true) :
    main_run { env with config := cfg1 } =
      main_run { env with config := cfg2 } ∧
    Event.stdoutLine ignoredNotice ∉
      (main_run { env with config := cfg1 }).events ∧
    stdoutOf (main_run { env with config := cfg1 }).events = [] := by
  cases hp : env.privatizeOk <;>
    simp_all [main_run, privatizeEvents, stdoutOf]

/-- Witness for C10: a concrete read-only-root run with `readonly = true`
in the config behaves exactly like one with an absent config. -/
theorem claim_C10_witness :
    main_run { roRootEnv with config := ConfigFile.parsed true } =
      main_run { roRootEnv with config := ConfigFile.absent } ∧
    Event.stdoutLine ignoredNotice ∉
      (main_run { roRootEnv with config := ConfigFile.parsed true }).events ∧
    stdoutOf (main_run { roRootEnv with
      config := ConfigFile.parsed true }).events = [] :=
  claim_C10 roRootEnv (ConfigFile.parsed true) ConfigFile.absent rfl

end OstreeRemount
